import Mathlib

/-!
Verification of the docker 1.2.0 API-server gateway (api/server/server.go and
the systemd notify helper) via a shallow embedding in Lean 4.

Each definition mirrors one Go function or code path of the repository.
Collaborator packages that are not part of the repository snapshot
(pkg/version, pkg/parsers, engine, utils, api/common) are modelled from the
specification's description of them; such definitions say so in their doc
comment.
-/

namespace DockerServer

/-! ## API versions

Modelled from the spec: "APIVersion: a dotted-numeric version value with total
ordering (greater/less/equal-or-greater comparisons)" (pkg/version is not in
the snapshot).  A version is its list of dotted numeric segments; comparison
is segment-wise, missing segments reading as zero. -/

/-- Modelled from the spec: segment-wise numeric comparison of dotted
versions, missing segments treated as zero (pkg/version.compareTo). -/
def cmpVersion : List Nat → List Nat → Ordering
  | [], ys => if ys.all (fun y => y = 0) then Ordering.eq else Ordering.lt
  | x :: xs, ys =>
    let y := ys.headD 0
    if x < y then Ordering.lt
    else if y < x then Ordering.gt
    else cmpVersion xs ys.tail

/-- Modelled from the spec: Version.GreaterThan. -/
def versionGreaterThan (a b : List Nat) : Bool :=
  cmpVersion a b == Ordering.gt

/-- Modelled from the spec: Version.GreaterThanOrEqualTo. -/
def versionGreaterThanOrEqualTo (a b : List Nat) : Bool :=
  cmpVersion a b != Ordering.lt

/-- Modelled from the spec: Version.LessThan. -/
def versionLessThan (a b : List Nat) : Bool :=
  cmpVersion a b == Ordering.lt

/-! ## C1: the version gate of makeHttpHandler (server.go:1035-1068) -/

/-- Outcome of a handler invocation; `jobsConstructed` counts the engine
jobs the handler built for the request. -/
structure HandlerOutcome where
  jobsConstructed : Nat
  responseStatus : Nat
deriving DecidableEq

/-- Result of the wrapper installed by makeHttpHandler around every
registered route. -/
inductive DispatchResult where
  | versionRejected (status : Nat)
  | handled (o : HandlerOutcome)
deriving DecidableEq

/-- makeHttpHandler (server.go:1035-1068): resolve the version from the path
token (defaulting to the server's API version when the token is absent),
answer 404 when the resolved version exceeds the server's maximum, and only
otherwise invoke the wrapped handler. -/
def makeHttpHandler (apiVersion : List Nat) (handler : List Nat → HandlerOutcome)
    (pathVersion : Option (List Nat)) : DispatchResult :=
  let v := match pathVersion with
    | some pv => pv
    | none => apiVersion
  if versionGreaterThan v apiVersion then
    DispatchResult.versionRejected 404
  else
    DispatchResult.handled (handler v)

/-- Number of jobs constructed for a request: none on the rejected path
(the handler is never invoked there). -/
def jobsOf : DispatchResult → Nat
  | DispatchResult.versionRejected _ => 0
  | DispatchResult.handled o => o.jobsConstructed

/-! ## C2: httpError, the job-error to HTTP-status mapping (server.go:73-96) -/

/-- Does `sub` occur as a leading segment of `s`? -/
def matchesAt : List Char → List Char → Bool
  | _, [] => true
  | [], _ :: _ => false
  | c :: cs, d :: ds => c == d && matchesAt cs ds

/-- Does `sub` occur contiguously anywhere in `s`? -/
def containsSub (sub : List Char) : List Char → Bool
  | [] => matchesAt [] sub
  | c :: cs => matchesAt (c :: cs) sub || containsSub sub cs

/-- strings.Contains. -/
def strContains (s sub : String) : Bool :=
  containsSub sub.toList s.toList

/-- httpError (server.go:73-96): map a job error message onto an HTTP status
by substring tests, in exactly the source's order. -/
def httpError (msg : String) : Nat :=
  if strContains msg "No such" then 404
  else if strContains msg "Bad parameter" then 400
  else if strContains msg "Conflict" then 409
  else if strContains msg "Impossible" then 406
  else if strContains msg "Wrong login/password" then 401
  else if strContains msg "hasn\x27t been activated" then 403
  else 500

/-- Generic ordered first-match substring lookup over a table of
(substring, status) entries, defaulting to 500. -/
def firstMatch : List (String × Nat) → String → Nat
  | [], _ => 500
  | (sub, code) :: rest, msg =>
    if strContains msg sub then code else firstMatch rest msg

/-- The substring table in the order the source tests it
(server.go:78-90): "Bad parameter" is tested before "Conflict". -/
def codeErrorTable : List (String × Nat) :=
  [("No such", 404), ("Bad parameter", 400), ("Conflict", 409),
   ("Impossible", 406), ("Wrong login/password", 401),
   ("hasn\x27t been activated", 403)]

/-- The substring table in the order the claim lists it ("Conflict" before
"Bad parameter"); kept for comparison against the source's order. -/
def claimErrorTable : List (String × Nat) :=
  [("No such", 404), ("Conflict", 409), ("Bad parameter", 400),
   ("Impossible", 406), ("Wrong login/password", 401),
   ("hasn\x27t been activated", 403)]

/-! ## C4: attach/logs stream wiring (server.go:368-414, 794-857)

postContainersAttach and getContainersLogs share the condition

  c.GetSubEnv("Config") != nil && !c.GetSubEnv("Config").GetBool("Tty")
    && version.GreaterThanOrEqualTo("1.6")

choosing between framed multiplexed output and raw passthrough, decided once
from the inspect result before the attach/logs job runs. -/

/-- The Config sub-environment of an inspected container, as the handlers
read it: only the Tty flag is consulted. -/
structure ContainerConfig where
  tty : Bool
deriving DecidableEq

/-- The inspect result the handlers consult: the Config sub-environment may
be absent (GetSubEnv returns nil). -/
structure InspectResult where
  config : Option ContainerConfig
deriving DecidableEq

/-- The two multiplexed stream identities. -/
inductive StreamId where
  | stdout
  | stderr
deriving DecidableEq

/-- Modelled from the spec: the 1-byte stream tag of the multiplex framing
(pkg/utils StdWriter is not in the snapshot); stdout is tagged 1,
stderr 2. -/
def stdWriterTag : StreamId → Nat
  | StreamId.stdout => 1
  | StreamId.stderr => 2

/-- 4-byte big-endian encoding of a chunk length. -/
def beBytes (n : Nat) : List Nat :=
  [n / 2 ^ 24 % 256, n / 2 ^ 16 % 256, n / 2 ^ 8 % 256, n % 256]

/-- Modelled from the spec: one multiplex frame — stream tag, 4-byte
big-endian length, then the payload. -/
def frame (id : StreamId) (payload : List Nat) : List Nat :=
  stdWriterTag id :: (beBytes payload.length ++ payload)

/-- A writer a job stream may be wired to: the hijacked connection (or
response) itself, or a StdWriter wrapping it for one stream identity. -/
inductive Writer where
  | raw
  | std (id : StreamId)
deriving DecidableEq

/-- The framing decision of postContainersAttach (server.go:836) and
getContainersLogs (server.go:401): Config present, Tty false, and client
version at least 1.6. -/
def framingDecision (c : InspectResult) (ver : List Nat) : Bool :=
  (match c.config with
   | some cfg => !cfg.tty
   | none => false)
  && versionGreaterThanOrEqualTo ver [1, 6]

/-- The (stdout, stderr) writer pair the two handlers install: StdWriters
when the framing decision holds, otherwise the raw connection for both
(errStream := outStream). -/
def setupStreams (c : InspectResult) (ver : List Nat) : Writer × Writer :=
  if framingDecision c ver then
    (Writer.std StreamId.stdout, Writer.std StreamId.stderr)
  else
    (Writer.raw, Writer.raw)

/-- Bytes a single write call puts on the wire through a writer. -/
def writeTo : Writer → List Nat → List Nat
  | Writer.raw, p => p
  | Writer.std id, p => frame id p

/-- Wire output of a whole attach/logs session: the writer pair is computed
once from the inspect result, then every job write goes through it in write
order. -/
def sessionOutput (c : InspectResult) (ver : List Nat)
    (writes : List (StreamId × List Nat)) : List Nat :=
  let ws := setupStreams c ver
  (writes.map (fun w =>
    writeTo (match w.1 with
             | StreamId.stdout => ws.1
             | StreamId.stderr => ws.2) w.2)).flatten

/-! ## Env records (for C5)

Modelled from the spec: "Env: ordered list of (key, serialized-value) pairs;
keys unique within one Env" (the engine package is not in the snapshot).
Get returns the value at a key (empty when absent); Set replaces the value
at an existing key, else appends. -/

/-- An Env record: ordered (key, value) pairs. -/
def EnvRecord : Type := List (String × String)

/-- Modelled from the spec: Env.Get — the value at a key, "" when absent. -/
def envGet (k : String) : List (String × String) → String
  | [] => ""
  | p :: rest => if p.1 = k then p.2 else envGet k rest

/-- Modelled from the spec: Env.Set — replace the value at a key, appending
when the key is absent. -/
def envSet (k v : String) : List (String × String) → List (String × String)
  | [] => [(k, v)]
  | p :: rest => if p.1 = k then (k, v) :: rest else p :: envSet k v rest

/-! ## C5: GET /containers/json (server.go:329-366) -/

/-- Response shape of a listing endpoint: incrementally streamed records, or
a legacy buffered table. -/
inductive ContainersResponse where
  | streamed (records : List (List (String × String)))
  | buffered (records : List (List (String × String)))
deriving DecidableEq

/-- The legacy per-record transform of getContainersJSON (server.go:355-359):
replace the Ports value by its displayable-string form.  `display` stands
for ReadListFrom composed with api.DisplayablePorts (neither is in the
snapshot). -/
def legacyPortsTransform (display : String → String)
    (out : List (String × String)) : List (String × String) :=
  envSet "Ports" (display (envGet "Ports" out)) out

/-- getContainersJSON (server.go:329-366): at version 1.5 and above the job
stdout is wired straight to the response (streamed, untransformed); below
1.5 the result is buffered and, after the job succeeds, each record's Ports
value is replaced by its displayable string. -/
def getContainersJSON (display : String → String) (ver : List Nat)
    (jobResult : Except String (List (List (String × String)))) :
    Except String ContainersResponse :=
  if versionGreaterThanOrEqualTo ver [1, 5] then
    jobResult.map ContainersResponse.streamed
  else
    jobResult.map (fun outs =>
      ContainersResponse.buffered (outs.map (legacyPortsTransform display)))

/-! ## C6: GET /images/json (server.go:213-260) -/

/-- A modern image record, restricted to the fields getImagesJSON reads when
re-projecting: RepoTags, Id, Created, Size, VirtualSize. -/
structure ImageRecord where
  repoTags : List String
  id : String
  created : Int
  size : Int
  virtualSize : Int
deriving DecidableEq

/-- A legacy image record as built at server.go:244-251: Repository and Tag
are top-level, the other fields are copied. -/
structure LegacyImageRecord where
  repository : String
  tag : String
  id : String
  created : Int
  size : Int
  virtualSize : Int
deriving DecidableEq

/-- The legacy record an element of RepoTags produces, given the repo:tag
splitter (pkg/parsers.ParseRepositoryTag is not in the snapshot, so the
splitter is a parameter). -/
def legacyImageOf (splitRepoTag : String → String × String)
    (out : ImageRecord) (repoTag : String) : LegacyImageRecord :=
  { repository := (splitRepoTag repoTag).1
    tag := (splitRepoTag repoTag).2
    id := out.id
    created := out.created
    size := out.size
    virtualSize := out.virtualSize }

/-- The legacy table of getImagesJSON (server.go:240-253): one legacy record
per element of each record's RepoTags list, in order. -/
def imagesLegacyTable (splitRepoTag : String → String × String)
    (outs : List ImageRecord) : List LegacyImageRecord :=
  outs.flatMap (fun out => out.repoTags.map (legacyImageOf splitRepoTag out))

/-- Response shape of GET /images/json. -/
inductive ImagesResponse where
  | streamed (records : List ImageRecord)
  | legacy (records : List LegacyImageRecord)
deriving DecidableEq

/-- getImagesJSON (server.go:213-260): at version 1.7 and above the result
streams untransformed; below 1.7 it is buffered and re-projected into the
legacy table. -/
def getImagesJSON (splitRepoTag : String → String × String) (ver : List Nat)
    (jobResult : Except String (List ImageRecord)) :
    Except String ImagesResponse :=
  if versionGreaterThanOrEqualTo ver [1, 7] then
    jobResult.map ImagesResponse.streamed
  else
    jobResult.map (fun outs =>
      ImagesResponse.legacy (imagesLegacyTable splitRepoTag outs))

/-! ## C7: mid-stream job failure on push / pull-import / build
(server.go:517-523, 602-608, 972-978)

postImagesCreate, postImagesPush and postBuild all end with the same block:
if job.Run() fails and job.Stdout.Used() is false, the error is returned to
the HTTP layer; if output was already written, the formatted error is
appended to the stream and the handler returns nil. -/

/-- A chunk on an already-started response stream: ordinary job output, or
the formatted error object appended by utils.StreamFormatter.FormatError. -/
inductive Chunk where
  | data (s : String)
  | errObj (msg : String)
deriving DecidableEq

/-- The shared tail of postImagesCreate, postImagesPush and postBuild: given
the job's error and the chunks its stdout already wrote to the response
(Stdout.Used() is exactly "some chunk was written"), produce the error the
handler returns and the final response stream. -/
def streamJobFinish (jobErr : Option String) (stream : List Chunk) :
    Option String × List Chunk :=
  match jobErr with
  | none => (none, stream)
  | some e =>
    if stream.isEmpty then (some e, stream)
    else (none, stream ++ [Chunk.errObj e])

/-! ## C8: credential decoding on push / search / pull
(server.go:468-488, 528-545, 560-589) -/

/-- registry.AuthConfig, with the fields of the registry package (not in
the snapshot; consumed opaquely by the handlers). -/
structure AuthConfig where
  username : String
  password : String
  auth : String
  email : String
  serveraddress : String
deriving DecidableEq

/-- The zero-valued credential object the handlers fall back to. -/
def emptyAuth : AuthConfig :=
  { username := "", password := "", auth := "", email := ""
    serveraddress := "" }

/-- Outcome of decoding the X-Registry-Auth header:
none = header absent; some none = header present but decode failed;
some (some a) = decoded credentials. -/
def HeaderDecode : Type := Option (Option AuthConfig)

/-- postImagesPush credential resolution (server.go:574-589): a present
header that fails to decode degrades to the empty credential; with no
header the body is decoded and a decode failure fails the request before
the push job is created.  `Except.ok a` means the push job runs with
credentials `a`. -/
def pushCredentials (header : Option (Option AuthConfig))
    (body : Option AuthConfig) : Except Unit AuthConfig :=
  match header with
  | some (some a) => Except.ok a
  | some none => Except.ok emptyAuth
  | none =>
    match body with
    | some a => Except.ok a
    | none => Except.error ()

/-- getImagesSearch credential resolution (server.go:538-545): absence or
decode failure of the header degrades to the empty credential; the search
job always runs. -/
def searchCredentials (header : Option (Option AuthConfig)) : AuthConfig :=
  match header with
  | some (some a) => a
  | some none => emptyAuth
  | none => emptyAuth

/-- postImagesCreate (pull) credential resolution (server.go:479-488): same
policy as search. -/
def pullCredentials (header : Option (Option AuthConfig)) : AuthConfig :=
  match header with
  | some (some a) => a
  | some none => emptyAuth
  | none => emptyAuth

/-! ## C3 and C9: activation gate, ServeFd and AcceptConnections
(server.go:1191-1222, 1377-1387; systemd notify helper in the snapshot) -/

/-- The state of the package-global activationLock channel: nil (never
initialized), made but open, or closed. -/
inductive GateState where
  | unset
  | pending
  | closed
deriving DecidableEq

/-- engine.Status as AcceptConnections returns it. -/
inductive EngineStatus where
  | ok
  | err (msg : String)
deriving DecidableEq

/-- The external conditions SdNotify runs under: the NOTIFY_SOCKET value
("" when unset) and whether the unixgram dial and the write succeed. -/
structure NotifyWorld where
  notifySocket : String
  dialOk : Bool
  writeOk : Bool
deriving DecidableEq

/-- The possible SdNotify failures; noSocket is the distinguished
SdNotifyNoSocket error. -/
inductive NotifyErr where
  | noSocket
  | dialErr
  | writeErr
deriving DecidableEq

/-- SdNotify (systemd helper in the snapshot): an empty NOTIFY_SOCKET
returns SdNotifyNoSocket before any dial; otherwise one connection is
attempted and dial/write failures are returned.  The second component
counts connection attempts. -/
def sdNotify (w : NotifyWorld) : Option NotifyErr × Nat :=
  if w.notifySocket = "" then (some NotifyErr.noSocket, 0)
  else if !w.dialOk then (some NotifyErr.dialErr, 1)
  else if !w.writeOk then (some NotifyErr.writeErr, 1)
  else (none, 1)

/-- What AcceptConnections produces when it does not fault: the new gate
state, its engine status, and the log lines it emits. -/
structure AcceptResult where
  gate : GateState
  status : EngineStatus
  logLines : List String
deriving DecidableEq

/-- AcceptConnections (server.go:1377-1387): the SdNotify outcome is spawned
and discarded (taken here as an argument and ignored — nothing is logged or
propagated); then the lock is closed if non-nil.  Closing a closed Go
channel panics, modelled as Except.error; the nil guard only protects the
never-initialized state. -/
def acceptConnections (_notify : Option NotifyErr × Nat) :
    GateState → Except String AcceptResult
  | GateState.unset => Except.ok ⟨GateState.unset, EngineStatus.ok, []⟩
  | GateState.pending => Except.ok ⟨GateState.closed, EngineStatus.ok, []⟩
  | GateState.closed => Except.error "close of closed channel"

/-- Combined state of one activation-style (fd) listener and the gate:
whether ServeFd has passed the `<-activationLock` receive, how many accept
calls it has made, and the gate. -/
structure SysState where
  gate : GateState
  serving : Bool
  accepts : Nat
deriving DecidableEq

/-- Interleaved small steps of ServeFd (server.go:1191-1222) and the
gate-closing operation: ServeFd may pass the gate receive only once the
channel is closed, may accept only after passing it, and the closer closes
a pending gate. -/
inductive SysStep : SysState → SysState → Prop
  | passGate (s : SysState) (hgate : s.gate = GateState.closed)
      (hserv : s.serving = false) :
      SysStep s { s with serving := true }
  | accept (s : SysState) (hserv : s.serving = true) :
      SysStep s { s with accepts := s.accepts + 1 }
  | closeGate (s : SysState) (hgate : s.gate = GateState.pending) :
      SysStep s { s with gate := GateState.closed }

/-- Initial state: ServeApi made the channel (pending), ServeFd is blocked
before the receive, no accept has happened. -/
def sysInit : SysState :=
  { gate := GateState.pending, serving := false, accepts := 0 }

/-- States reachable from the initial state by interleaved steps. -/
inductive SysReachable : SysState → Prop
  | init : SysReachable sysInit
  | step {s t : SysState} : SysReachable s → SysStep s t → SysReachable t

/-! ## C10: POST /containers/-name-/start and /stop
(server.go:712-741, 743-761) -/

/-- Observable outcome of the start/stop handlers combined with
makeHttpHandler's httpError wrapper. -/
inductive StartStopOutcome where
  | notModified
  | noContent
  | errStatus (code : Nat)
deriving DecidableEq

/-- postContainersStart (server.go:732-740) composed with httpError: a job
error exactly equal to "Container already started" yields 304 and no error
is propagated; any other error goes to the substring mapping; success
yields 204. -/
def postContainersStart (jobErr : Option String) : StartStopOutcome :=
  match jobErr with
  | none => StartStopOutcome.noContent
  | some e =>
    if e = "Container already started" then StartStopOutcome.notModified
    else StartStopOutcome.errStatus (httpError e)

/-- postContainersStop (server.go:752-759) composed with httpError, with
the sentinel message "Container already stopped". -/
def postContainersStop (jobErr : Option String) : StartStopOutcome :=
  match jobErr with
  | none => StartStopOutcome.noContent
  | some e =>
    if e = "Container already stopped" then StartStopOutcome.notModified
    else StartStopOutcome.errStatus (httpError e)

/-! ## Helper lemmas (shared) -/

theorem cmpVersion_self (v : List Nat) : cmpVersion v v = Ordering.eq := by
  induction v with
  | nil => rfl
  | cons x xs ih => simp [cmpVersion, ih]

theorem versionGreaterThan_irrefl (v : List Nat) :
    versionGreaterThan v v = false := by
  simp only [versionGreaterThan, cmpVersion_self]
  rfl

theorem envGet_envSet_same (k v : String) (e : List (String × String)) :
    envGet k (envSet k v e) = v := by
  induction e with
  | nil => simp [envSet, envGet]
  | cons p rest ih =>
    by_cases h : p.1 = k
    · simp [envSet, envGet, h]
    · simp [envSet, envGet, h, ih]

theorem envGet_envSet_other (k k' v : String) (e : List (String × String))
    (hk : k' ≠ k) : envGet k' (envSet k v e) = envGet k' e := by
  have hk2 : k ≠ k' := Ne.symm hk
  induction e with
  | nil => simp [envSet, envGet, hk2]
  | cons p rest ih =>
    by_cases h : p.1 = k
    · have h2 : p.1 ≠ k' := by rw [h]; exact hk2
      simp [envSet, envGet, h, h2, hk2]
    · simp [envSet, envGet, h, ih]

/-- Invariant of the ServeFd/AcceptConnections interleaving: the listener is
past the gate receive only once the gate is closed, and no accept happens
before that; moreover a closed gate stays closed. -/
theorem sysReachable_invariant {s : SysState} (hs : SysReachable s) :
    (s.serving = true → s.gate = GateState.closed) ∧
    (s.gate ≠ GateState.closed → s.accepts = 0) := by
  induction hs with
  | init => simp [sysInit]
  | step hr st ih =>
    cases st with
    | passGate hgate hserv =>
      exact ⟨fun _ => hgate, fun hne => absurd hgate hne⟩
    | accept hserv =>
      exact ⟨fun _ => ih.1 hserv, fun hne => absurd (ih.1 hserv) hne⟩
    | closeGate hgate =>
      exact ⟨fun _ => rfl, fun hne => absurd rfl hne⟩

/-- A closed gate is never re-opened by any step. -/
theorem sysStep_gate_monotone {s t : SysState} (st : SysStep s t)
    (h : s.gate = GateState.closed) : t.gate = GateState.closed := by
  cases st with
  | passGate hgate hserv => exact h
  | accept hserv => exact h
  | closeGate hgate => rfl

/-! ## Claim theorems -/

/-- C1: for every registered route, a request whose resolved API version is
strictly greater than the server's maximum (api.APIVERSION) is answered 404
before the handler runs, so no job is constructed; a request with no
version token resolves to the server's API version and passes the gate. -/
theorem version_gate_rejects_future_versions
    (apiVersion v : List Nat) (handler : List Nat → HandlerOutcome)
    (h : versionGreaterThan v apiVersion = true) :
    makeHttpHandler apiVersion handler (some v) =
      DispatchResult.versionRejected 404 ∧
    jobsOf (makeHttpHandler apiVersion handler (some v)) = 0 ∧
    makeHttpHandler apiVersion handler none =
      DispatchResult.handled (handler apiVersion) := by
  refine ⟨?_, ?_, ?_⟩
  · simp [makeHttpHandler, h]
  · simp [makeHttpHandler, h, jobsOf]
  · simp [makeHttpHandler, versionGreaterThan_irrefl]

theorem version_gate_rejects_future_versions_witness :
    versionGreaterThan [1, 15] [1, 14] = true ∧
    (makeHttpHandler [1, 14] (fun _ => ⟨1, 200⟩) (some [1, 15]) =
       DispatchResult.versionRejected 404 ∧
     jobsOf (makeHttpHandler [1, 14] (fun _ => ⟨1, 200⟩) (some [1, 15])) = 0 ∧
     makeHttpHandler [1, 14] (fun _ => ⟨1, 200⟩) none =
       DispatchResult.handled ⟨1, 200⟩) :=
  ⟨by decide,
   version_gate_rejects_future_versions [1, 14] [1, 15]
     (fun _ => ⟨1, 200⟩) (by decide)⟩

/-- C2 counterexample: the claim lists "Conflict" before "Bad parameter",
but the source tests "Bad parameter" first (server.go:80-83); a message
containing both gets 400 from the code while the claim's ordered table
gives 409. -/
theorem httpError_claim_order_counterexample :
    httpError "Conflict: Bad parameter" = 400 ∧
    firstMatch claimErrorTable "Conflict: Bad parameter" = 409 := by
  exact ⟨by decide, by decide⟩

/-- C2 amended: httpError is the ordered first-match substring policy over
the source's table — "No such" 404, "Bad parameter" 400, "Conflict" 409,
"Impossible" 406, "Wrong login/password" 401, "hasn\x27t been activated"
403 — with 500 when no listed substring occurs; on a multi-substring
message the earliest entry of this (source-ordered) table wins. -/
theorem httpError_is_ordered_first_match (msg : String) :
    httpError msg = firstMatch codeErrorTable msg ∧
    ((∀ p ∈ codeErrorTable, strContains msg p.1 = false) →
      httpError msg = 500) := by
  refine ⟨rfl, fun h => ?_⟩
  have h1 := h ("No such", 404) (by simp [codeErrorTable])
  have h2 := h ("Bad parameter", 400) (by simp [codeErrorTable])
  have h3 := h ("Conflict", 409) (by simp [codeErrorTable])
  have h4 := h ("Impossible", 406) (by simp [codeErrorTable])
  have h5 := h ("Wrong login/password", 401) (by simp [codeErrorTable])
  have h6 := h ("hasn\x27t been activated", 403) (by simp [codeErrorTable])
  simp [httpError, h1, h2, h3, h4, h5, h6]

theorem httpError_is_ordered_first_match_witness :
    httpError "boom" = firstMatch codeErrorTable "boom" ∧
    httpError "boom" = 500 :=
  ⟨(httpError_is_ordered_first_match "boom").1,
   (httpError_is_ordered_first_match "boom").2 (by decide)⟩

/-- C3 counterexample: a second invocation of AcceptConnections on an
already-closed (non-nil) gate faults — the nil guard of server.go:1382 does
not protect against closing a closed channel, which panics in Go. -/
theorem accept_connections_double_close_faults :
    (acceptConnections (sdNotify ⟨"", true, true⟩) GateState.pending).bind
        (fun r => acceptConnections (sdNotify ⟨"", true, true⟩) r.gate) =
      Except.error "close of closed channel" := rfl

/-- C3 amended: an activation-style listener performs zero accept calls
before the gate is closed and may proceed immediately after;
AcceptConnections closes a pending gate exactly once, returning success,
and a closed gate stays closed; but the guard protects only the
never-initialized nil gate — invoking the closing operation again once the
gate is closed faults instead of being rejected. -/
theorem activation_gate_behavior (s : SysState) (n : Option NotifyErr × Nat)
    (hs : SysReachable s) :
    (s.gate ≠ GateState.closed → s.accepts = 0) ∧
    (s.serving = true → s.gate = GateState.closed) ∧
    (s.gate = GateState.closed → s.serving = false →
      SysStep s { s with serving := true }) ∧
    (∀ t, SysStep s t → s.gate = GateState.closed →
      t.gate = GateState.closed) ∧
    acceptConnections n GateState.pending =
      Except.ok ⟨GateState.closed, EngineStatus.ok, []⟩ ∧
    acceptConnections n GateState.unset =
      Except.ok ⟨GateState.unset, EngineStatus.ok, []⟩ ∧
    acceptConnections n GateState.closed =
      Except.error "close of closed channel" :=
  ⟨(sysReachable_invariant hs).2, (sysReachable_invariant hs).1,
   fun hg hserv => SysStep.passGate s hg hserv,
   fun _ st hg => sysStep_gate_monotone st hg, rfl, rfl, rfl⟩

theorem activation_gate_behavior_witness :
    sysInit.accepts = 0 ∧
    acceptConnections (none, 0) GateState.pending =
      Except.ok ⟨GateState.closed, EngineStatus.ok, []⟩ ∧
    acceptConnections (none, 0) GateState.closed =
      Except.error "close of closed channel" :=
  ⟨(activation_gate_behavior sysInit (none, 0) SysReachable.init).1
      (by decide),
   (activation_gate_behavior sysInit (none, 0) SysReachable.init).2.2.2.2.1,
   (activation_gate_behavior sysInit (none, 0)
      SysReachable.init).2.2.2.2.2.2⟩

/-- The framed shape of a whole session's wire output when the framing
decision holds. -/
theorem sessionOutput_framed (c : InspectResult) (ver : List Nat)
    (h : framingDecision c ver = true)
    (writes : List (StreamId × List Nat)) :
    sessionOutput c ver writes =
      (writes.map (fun w => frame w.1 w.2)).flatten := by
  have hsetup : setupStreams c ver =
      (Writer.std StreamId.stdout, Writer.std StreamId.stderr) := by
    simp [setupStreams, h]
  have hfun : (fun (w : StreamId × List Nat) =>
      writeTo (match w.1 with
               | StreamId.stdout => (setupStreams c ver).1
               | StreamId.stderr => (setupStreams c ver).2) w.2) =
      fun (w : StreamId × List Nat) => frame w.1 w.2 := by
    funext w
    obtain ⟨id, p⟩ := w
    cases id <;> simp [hsetup, writeTo]
  simp only [sessionOutput]
  rw [hfun]

/-- The raw shape of a whole session's wire output when the framing
decision fails: payloads pass through unframed. -/
theorem sessionOutput_raw (c : InspectResult) (ver : List Nat)
    (h : framingDecision c ver = false)
    (writes : List (StreamId × List Nat)) :
    sessionOutput c ver writes = (writes.map (fun w => w.2)).flatten := by
  have hsetup : setupStreams c ver = (Writer.raw, Writer.raw) := by
    simp [setupStreams, h]
  have hfun : (fun (w : StreamId × List Nat) =>
      writeTo (match w.1 with
               | StreamId.stdout => (setupStreams c ver).1
               | StreamId.stderr => (setupStreams c ver).2) w.2) =
      fun (w : StreamId × List Nat) => w.2 := by
    funext w
    obtain ⟨id, p⟩ := w
    cases id <;> simp [hsetup, writeTo]
  simp only [sessionOutput]
  rw [hfun]

/-- C4: for container attach and container logs the output streams are
wrapped in the tag-plus-big-endian-length framing iff the inspected
container's Config exists, its Tty is false, and the version is at least
1.6; in every other case framing is skipped and the diagnostic writer is
the very writer of the standard stream; the decision is computed once and
every session write goes through it, frames appearing in write order. -/
theorem attach_logs_framing (c : InspectResult) (ver : List Nat)
    (writes : List (StreamId × List Nat)) :
    (framingDecision c ver = true ↔
      ∃ cfg, c.config = some cfg ∧ cfg.tty = false ∧
        versionGreaterThanOrEqualTo ver [1, 6] = true) ∧
    (framingDecision c ver = true →
      setupStreams c ver =
        (Writer.std StreamId.stdout, Writer.std StreamId.stderr) ∧
      sessionOutput c ver writes =
        (writes.map (fun w => frame w.1 w.2)).flatten) ∧
    (framingDecision c ver = false →
      (setupStreams c ver).2 = (setupStreams c ver).1 ∧
      (setupStreams c ver).1 = Writer.raw ∧
      sessionOutput c ver writes = (writes.map (fun w => w.2)).flatten) := by
  refine ⟨?_, fun h => ?_, fun h => ?_⟩
  · cases hc : c.config with
    | none => simp [framingDecision, hc]
    | some cfg =>
      cases htty : cfg.tty with
      | false => simp [framingDecision, hc, htty]
      | true => simp [framingDecision, hc, htty]
  · exact ⟨by simp [setupStreams, h], sessionOutput_framed c ver h writes⟩
  · exact ⟨by simp [setupStreams, h], by simp [setupStreams, h],
      sessionOutput_raw c ver h writes⟩

theorem attach_logs_framing_witness :
    framingDecision ⟨some ⟨false⟩⟩ [1, 6] = true ∧
    sessionOutput ⟨some ⟨false⟩⟩ [1, 6]
        [(StreamId.stderr, [65]), (StreamId.stdout, [66, 67])] =
      [2, 0, 0, 0, 1, 65, 1, 0, 0, 0, 2, 66, 67] := by
  refine ⟨by decide, ?_⟩
  rw [((attach_logs_framing ⟨some ⟨false⟩⟩ [1, 6]
      [(StreamId.stderr, [65]), (StreamId.stdout, [66, 67])]).2.1
      (by decide)).2]
  decide

/-- C5: GET /containers/json streams the job output untransformed at
version at least 1.5; strictly below 1.5 it buffers and, after success,
replaces each record's Ports value by its displayable-string form, leaving
every other key untouched (same underlying state). -/
theorem containers_listing_compat (display : String → String)
    (ver : List Nat) (recs : List (List (String × String))) :
    (versionGreaterThanOrEqualTo ver [1, 5] = true →
      getContainersJSON display ver (Except.ok recs) =
        Except.ok (ContainersResponse.streamed recs)) ∧
    (versionGreaterThanOrEqualTo ver [1, 5] = false →
      getContainersJSON display ver (Except.ok recs) =
        Except.ok (ContainersResponse.buffered
          (recs.map (legacyPortsTransform display)))) ∧
    (∀ out k, k ≠ "Ports" →
      envGet k (legacyPortsTransform display out) = envGet k out) ∧
    (∀ out, envGet "Ports" (legacyPortsTransform display out) =
      display (envGet "Ports" out)) := by
  refine ⟨fun h => ?_, fun h => ?_, fun out k hk => ?_, fun out => ?_⟩
  · simp [getContainersJSON, h, Except.map]
  · simp [getContainersJSON, h, Except.map]
  · exact envGet_envSet_other "Ports" k (display (envGet "Ports" out)) out hk
  · exact envGet_envSet_same "Ports" (display (envGet "Ports" out)) out

theorem containers_listing_compat_witness :
    versionGreaterThanOrEqualTo [1, 4] [1, 5] = false ∧
    getContainersJSON (fun s => String.append "p:" s) [1, 4]
        (Except.ok [[("Ports", "x"), ("Id", "c1")]]) =
      Except.ok (ContainersResponse.buffered
        [[("Ports", "p:x"), ("Id", "c1")]]) := by
  refine ⟨by decide, ?_⟩
  rw [(containers_listing_compat (fun s => String.append "p:" s) [1, 4]
      [[("Ports", "x"), ("Id", "c1")]]).2.1 (by decide)]
  rfl

/-- C6: GET /images/json below 1.7 buffers and re-projects the modern
records into the legacy table — one legacy record per RepoTags element,
with the repo:tag compound split into Repository and Tag and Id, Created,
Size, VirtualSize copied unchanged; at 1.7 and above it streams
untransformed. -/
theorem images_listing_compat (split : String → String × String)
    (ver : List Nat) (outs : List ImageRecord) :
    (versionGreaterThanOrEqualTo ver [1, 7] = true →
      getImagesJSON split ver (Except.ok outs) =
        Except.ok (ImagesResponse.streamed outs)) ∧
    (versionGreaterThanOrEqualTo ver [1, 7] = false →
      getImagesJSON split ver (Except.ok outs) =
        Except.ok (ImagesResponse.legacy (imagesLegacyTable split outs))) ∧
    (imagesLegacyTable split outs).length =
      (outs.map (fun o => o.repoTags.length)).sum ∧
    (∀ out ∈ outs, ∀ rt ∈ out.repoTags,
      legacyImageOf split out rt ∈ imagesLegacyTable split outs) ∧
    (∀ out rt,
      (legacyImageOf split out rt).repository = (split rt).1 ∧
      (legacyImageOf split out rt).tag = (split rt).2 ∧
      (legacyImageOf split out rt).id = out.id ∧
      (legacyImageOf split out rt).created = out.created ∧
      (legacyImageOf split out rt).size = out.size ∧
      (legacyImageOf split out rt).virtualSize = out.virtualSize) := by
  refine ⟨fun h => ?_, fun h => ?_, ?_, ?_, ?_⟩
  · simp [getImagesJSON, h, Except.map]
  · simp [getImagesJSON, h, Except.map]
  · unfold imagesLegacyTable
    induction outs with
    | nil => rfl
    | cons o os ih =>
      simp [List.flatMap_cons, List.length_append, List.length_map, ih]
  · intro out hout rt hrt
    exact List.mem_flatMap.mpr
      ⟨out, hout, List.mem_map_of_mem _ hrt⟩
  · intro out rt
    exact ⟨rfl, rfl, rfl, rfl, rfl, rfl⟩

theorem images_listing_compat_witness :
    versionGreaterThanOrEqualTo [1, 6] [1, 7] = false ∧
    getImagesJSON (fun s => (s, "t")) [1, 6]
        (Except.ok [⟨["ra", "rb"], "id1", 1, 2, 3⟩]) =
      Except.ok (ImagesResponse.legacy
        [⟨"ra", "t", "id1", 1, 2, 3⟩, ⟨"rb", "t", "id1", 1, 2, 3⟩]) := by
  refine ⟨by decide, ?_⟩
  rw [(images_listing_compat (fun s => (s, "t")) [1, 6]
      [⟨["ra", "rb"], "id1", 1, 2, 3⟩]).2.1 (by decide)]
  rfl

/-- C7: on push, pull/import and build, a failing job returns its error to
the HTTP layer iff its standard stream wrote nothing yet; once output
exists, the error is appended to the stream as the formatted error object
and the handler returns success. -/
theorem streaming_error_policy (jobErr : Option String)
    (stream : List Chunk) :
    ((streamJobFinish jobErr stream).1.isSome = true ↔
      jobErr.isSome = true ∧ stream = []) ∧
    (∀ e, jobErr = some e → stream ≠ [] →
      streamJobFinish jobErr stream = (none, stream ++ [Chunk.errObj e])) ∧
    (∀ e, jobErr = some e → stream = [] →
      streamJobFinish jobErr stream = (some e, stream)) ∧
    (jobErr = none → streamJobFinish jobErr stream = (none, stream)) := by
  cases jobErr with
  | none => simp [streamJobFinish]
  | some e =>
    cases stream with
    | nil => simp [streamJobFinish]
    | cons c cs => simp [streamJobFinish]

theorem streaming_error_policy_witness :
    streamJobFinish (some "E") [Chunk.data "x"] =
      (none, [Chunk.data "x", Chunk.errObj "E"]) ∧
    streamJobFinish (some "E") [] = (some "E", []) :=
  ⟨(streaming_error_policy (some "E") [Chunk.data "x"]).2.1 "E" rfl
      (by simp),
   (streaming_error_policy (some "E") []).2.2.1 "E" rfl rfl⟩

/-- C8: on push, a present X-Registry-Auth header that fails to decode
degrades to the empty credential and the job still runs; with the header
absent, a body decode failure fails the request before the job exists
(Except.error); search and pull degrade a header decode failure to the
empty credential as well. -/
theorem push_auth_decode_policy (body : Option AuthConfig) (a : AuthConfig) :
    pushCredentials (some none) body = Except.ok emptyAuth ∧
    pushCredentials none none = Except.error () ∧
    pushCredentials none (some a) = Except.ok a ∧
    pushCredentials (some (some a)) body = Except.ok a ∧
    searchCredentials (some none) = emptyAuth ∧
    pullCredentials (some none) = emptyAuth :=
  ⟨rfl, rfl, rfl, rfl, rfl, rfl⟩

/-- C9 counterexample: with NOTIFY_SOCKET set but the dial failing, the
notification fails, yet AcceptConnections records no log line (and returns
success): the failure is discarded, not logged. -/
theorem notify_failure_not_logged :
    (sdNotify ⟨"/run/systemd/notify", false, true⟩).1 =
      some NotifyErr.dialErr ∧
    acceptConnections (sdNotify ⟨"/run/systemd/notify", false, true⟩)
        GateState.pending =
      Except.ok ⟨GateState.closed, EngineStatus.ok, []⟩ :=
  ⟨rfl, rfl⟩

/-- C9 amended: with NOTIFY_SOCKET unset, SdNotify returns the
distinguished SdNotifyNoSocket error without attempting any connection;
the notification outcome is discarded by AcceptConnections — neither
logged nor propagated — and the gate-closing operation returns a success
status regardless of it. -/
theorem sdnotify_best_effort (w : NotifyWorld) :
    (w.notifySocket = "" → sdNotify w = (some NotifyErr.noSocket, 0)) ∧
    acceptConnections (sdNotify w) GateState.pending =
      Except.ok ⟨GateState.closed, EngineStatus.ok, []⟩ ∧
    acceptConnections (sdNotify w) GateState.unset =
      Except.ok ⟨GateState.unset, EngineStatus.ok, []⟩ := by
  refine ⟨fun h => ?_, rfl, rfl⟩
  simp [sdNotify, h]

theorem sdnotify_best_effort_witness :
    sdNotify ⟨"", true, true⟩ = (some NotifyErr.noSocket, 0) ∧
    acceptConnections (sdNotify ⟨"", true, true⟩) GateState.pending =
      Except.ok ⟨GateState.closed, EngineStatus.ok, []⟩ :=
  ⟨(sdnotify_best_effort ⟨"", true, true⟩).1 rfl,
   (sdnotify_best_effort ⟨"", true, true⟩).2.1⟩

/-- C10: start and stop answer 304 exactly when the job error equals the
sentinel message by exact string equality (no error propagates then), 204
on success, and hand every other error to the substring-to-status
mapping. -/
theorem start_stop_not_modified (e : String) :
    postContainersStart none = StartStopOutcome.noContent ∧
    postContainersStop none = StartStopOutcome.noContent ∧
    postContainersStart (some "Container already started") =
      StartStopOutcome.notModified ∧
    postContainersStop (some "Container already stopped") =
      StartStopOutcome.notModified ∧
    (e ≠ "Container already started" →
      postContainersStart (some e) =
        StartStopOutcome.errStatus (httpError e)) ∧
    (e ≠ "Container already stopped" →
      postContainersStop (some e) =
        StartStopOutcome.errStatus (httpError e)) := by
  refine ⟨rfl, rfl, by decide, by decide, fun h => ?_, fun h => ?_⟩
  · simp [postContainersStart, h]
  · simp [postContainersStop, h]

theorem start_stop_not_modified_witness :
    ("x Container already started" ≠ "Container already started") ∧
    postContainersStart (some "x Container already started") =
      StartStopOutcome.errStatus 500 := by
  refine ⟨by decide, ?_⟩
  rw [(start_stop_not_modified "x Container already started").2.2.2.2.1
      (by decide)]
  decide

end DockerServer
